import Mathlib

/-
Verification of the Conan recipe `src/conan/conan-mbedtls.py` (class `MbedTLS`).

The recipe is a linear pipeline: fetch the pinned mbedtls revision with a
shallow git clone, apply a bundled patch, lay out the build tree, generate the
CMake toolchain (the build plan), configure and build with a fixed variable
map, install, and finally publish package discovery metadata.

The embedding mirrors the recipe's class attributes as constants and each
lifecycle method as a transition on a run state that records the trace of
external-collaborator invocations (git clone, patch application, CMake layout,
toolchain generation, configure, build, install).  The external collaborators
(conan's Git, patch, CMakeToolchain and CMake helpers) are not part of this
repository; their success/failure behaviour is modelled by an environment of
boolean outcomes, following the spec's external-interface contracts.
-/

namespace MbedTLS

def name : String := "mbedtls"

def branch : String := "v3.5.0"

def version : String := "patched-v3.5.0"

def settings : List String := ["os", "compiler", "build_type", "arch"]

def options : List (String × String) := []

def default_options : List (String × String) := []

def patch_file : String := name ++ "-" ++ branch ++ ".patch"

def exports_sources : String := patch_file

def url : String := "https://github.com/Mbed-TLS/mbedtls.git"

def clone_args : List String := ["--depth", "1", "--branch", branch]

/-- Ambient build context (target platform / toolchain / build-type / arch)
supplied by the host package manager, matching the recipe's `settings`. -/
structure BuildContext where
  os : String
  compiler : String
  build_type : String
  arch : String
  deriving DecidableEq, Repr

/-- One invocation of an external collaborator, as recorded in the run trace. -/
inductive Action where
  | gitClone (address : String) (args : List String)
  | patchApply (patchFile : String) (basePath : String)
  | cmakeLayout
  | toolchainGenerate (ctx : BuildContext)
  | cmakeConfigure (vars : List (String × String)) (buildScriptFolder : Option String)
  | cmakeBuild
  | cmakeInstall
  deriving DecidableEq, Repr

/-- The spec's error taxonomy (section 7). -/
inductive RecipeError where
  | RetrievalError
  | PatchError
  | ConfigurationError
  | BuildError
  | InstallError
  deriving DecidableEq, Repr

/-- Modelled from the spec: outcomes of the external collaborators, which are
not part of this repository (conan's Git.clone, conan.tools.files.patch, and
the CMake configure/build/install operations).  `patchFileExists` and
`patchApplies` model the spec's patch-application contract
`apply(patch_file, base_path, target_tree) -> success | hunk_failure`, where a
missing bundled patch file or a failing hunk raises a fatal PatchError. -/
structure Env where
  cloneOk : Bool
  patchFileExists : Bool
  patchApplies : Bool
  configureOk : Bool
  buildOk : Bool
  installOk : Bool
  deriving DecidableEq, Repr

/-- The observable state of one recipe run: stage completion markers, the
generated toolchain plan, the published package metadata, and the trace of
external invocations. -/
structure RunState where
  fetched : Bool
  patched : Bool
  toolchain : Option BuildContext
  configured : Bool
  built : Bool
  installed : Bool
  cpp_info_builddirs : List String
  cpp_info_properties : List (String × String)
  trace : List Action
  deriving DecidableEq, Repr

def initState : RunState :=
  { fetched := false, patched := false, toolchain := none, configured := false,
    built := false, installed := false, cpp_info_builddirs := [],
    cpp_info_properties := [], trace := [] }

/-- `MbedTLS.source` (lines 18-22): shallow clone of the pinned revision, then
application of the bundled patch rooted at `base_path=self.name`.  The patch
file argument is `os.path.join(self.export_sources_folder, self.patch_file)`;
`esf` is the export-sources folder.  Failure outcomes of the external clone
and patch calls come from `env`. -/
def source (env : Env) (esf : String) (s : RunState) : RunState × Option RecipeError :=
  let s1 := { s with trace := s.trace ++ [Action.gitClone url clone_args] }
  if env.cloneOk then
    let s2 := { s1 with fetched := true }
    let s3 := { s2 with trace := s2.trace ++ [Action.patchApply (esf ++ "/" ++ patch_file) name] }
    if env.patchFileExists && env.patchApplies then
      ({ s3 with patched := true }, none)
    else (s3, some RecipeError.PatchError)
  else (s1, some RecipeError.RetrievalError)

/-- `MbedTLS.layout` (lines 24-25): `cmake_layout(self)`. -/
def layout (s : RunState) : RunState :=
  { s with trace := s.trace ++ [Action.cmakeLayout] }

/-- `MbedTLS.generate` (lines 27-29): build a `CMakeToolchain` from the
ambient build context and generate it — the production of the build plan. -/
def generate (ctx : BuildContext) (s : RunState) : RunState :=
  { s with toolchain := some ctx,
           trace := s.trace ++ [Action.toolchainGenerate ctx] }

/-- The variable map of `MbedTLS.build` line 33. -/
def buildVariables : List (String × String) :=
  [("ENABLE_TESTING", "OFF"), ("ENABLE_PROGRAMS", "OFF")]

/-- `MbedTLS.build` (lines 31-35): `cmake.configure(variables=...,
build_script_folder=self.name)` then `cmake.build()`. -/
def build (env : Env) (s : RunState) : RunState × Option RecipeError :=
  let s1 := { s with trace := s.trace ++ [Action.cmakeConfigure buildVariables (some name)] }
  if env.configureOk then
    let s2 := { s1 with configured := true }
    let s3 := { s2 with trace := s2.trace ++ [Action.cmakeBuild] }
    if env.buildOk then ({ s3 with built := true }, none)
    else (s3, some RecipeError.BuildError)
  else (s1, some RecipeError.ConfigurationError)

/-- `MbedTLS.package` (lines 37-39): `cmake.install()`. -/
def package (env : Env) (s : RunState) : RunState × Option RecipeError :=
  let s1 := { s with trace := s.trace ++ [Action.cmakeInstall] }
  if env.installOk then ({ s1 with installed := true }, none)
  else (s1, some RecipeError.InstallError)

/-- `MbedTLS.package_info` (lines 41-43): publish the discovery-file path and
the cmake_find_mode="none" lookup override. -/
def package_info (s : RunState) : RunState :=
  { s with cpp_info_builddirs := ["lib/cmake/MbedTLS/"],
           cpp_info_properties := [("cmake_find_mode", "none")] }

/-- Early-exit sequencing of fallible pipeline stages. -/
def andThen (r : RunState × Option RecipeError)
    (f : RunState → RunState × Option RecipeError) : RunState × Option RecipeError :=
  match r with
  | (s, none) => f s
  | (s, some e) => (s, some e)

/-- One full recipe run: the strictly linear lifecycle
source → layout → generate → build → package → package_info, halting at the
first stage failure. -/
def run (env : Env) (ctx : BuildContext) (esf : String) : RunState × Option RecipeError :=
  andThen (source env esf initState) (fun s =>
  andThen (layout s, none) (fun s =>
  andThen (generate ctx s, none) (fun s =>
  andThen (build env s) (fun s =>
  andThen (package env s) (fun s =>
  (package_info s, none))))))

/-- The recipe's derived version string viewed as the map the persisted
identity depends on: line 10 of the source assigns the literal constant
`"patched-v3.5.0"`, referencing neither the pinned revision (`branch`,
line 9) nor the patch file. -/
def derivedVersion (_revision : String) (_patchContents : String) : String :=
  "patched-v3.5.0"

/-- The persisted identity `{name, derived version string}` a consumer keys a
cached build against, as a function of the pinned revision and the patch
file. -/
def persistedIdentity (revision : String) (patchContents : String) : String × String :=
  (name, derivedVersion revision patchContents)

/-- Whether an action is an invocation of the external build tool
(configure / build / install). -/
def isBuildToolInvocation : Action → Bool
  | Action.cmakeConfigure _ _ => true
  | Action.cmakeBuild => true
  | Action.cmakeInstall => true
  | _ => false

/-- A full recipe run as seen from a consumer who attempts to supply option
values: the recipe declares `options = {}` and `default_options = {}`
(lines 12-13) and no lifecycle method reads any option, so consumer-supplied
option values have no channel into the run. -/
def runWithConsumerOptions (_consumerOpts : List (String × String))
    (env : Env) (ctx : BuildContext) (esf : String) : RunState × Option RecipeError :=
  run env ctx esf

/-- C1 (counterexample): the map from (pinned revision, patch file) to the
persisted identity string is not injective — two distinct (revision, patch)
inputs yield the same identity, because line 10 assigns the version as a
literal constant that references neither input. -/
theorem persistedIdentity_not_injective :
    persistedIdentity "v3.5.0" "patchA" = persistedIdentity "v3.9.9" "patchB" ∧
    (("v3.5.0", "patchA") : String × String) ≠ ("v3.9.9", "patchB") :=
  ⟨rfl, by decide⟩

/-- C1 (amended): the derived version string, as a function of the pinned
revision and the patch file, is the constant map to the literal
"patched-v3.5.0"; it does not vary with either input, so it is not injective,
and the persisted identity of any (revision, patch) pair is
("mbedtls", "patched-v3.5.0"). -/
theorem derivedVersion_constant (r1 p1 r2 p2 : String) :
    derivedVersion r1 p1 = derivedVersion r2 p2 ∧
    derivedVersion r1 p1 = version ∧
    persistedIdentity r1 p1 = (name, version) :=
  ⟨rfl, rfl, rfl⟩

/-- C2: the derived version string "patched-v3.5.0" encodes both the pinned
revision "v3.5.0" (it is "patched-" prepended to the revision) and the patch
fact, and it differs from the raw revision string. -/
theorem version_encodes_revision_and_patch :
    version = "patched-v3.5.0" ∧ branch = "v3.5.0" ∧
    version = "patched-" ++ branch ∧ version ≠ branch :=
  ⟨rfl, rfl, rfl, by decide⟩

/-- C3: every configure invocation of the external build tool in any recipe
run carries exactly the two-entry option map
{ENABLE_TESTING: OFF, ENABLE_PROGRAMS: OFF} and no other options. -/
theorem build_option_map_exact (env : Env) (ctx : BuildContext) (esf : String)
    (v : List (String × String)) (f : Option String)
    (h : Action.cmakeConfigure v f ∈ (run env ctx esf).1.trace) :
    v = [("ENABLE_TESTING", "OFF"), ("ENABLE_PROGRAMS", "OFF")] := by
  rcases env with ⟨c, pe, pa, co, b, i⟩
  cases c <;> cases pe <;> cases pa <;> cases co <;> cases b <;> cases i <;>
    simp_all [run, source, layout, generate, build, package, package_info,
      andThen, initState, buildVariables]

/-- C3 witness: a fully successful run contains a configure invocation, and
its option map is the fixed two-entry map. -/
theorem build_option_map_exact_witness :
    Action.cmakeConfigure
        [("ENABLE_TESTING", "OFF"), ("ENABLE_PROGRAMS", "OFF")] (some "mbedtls") ∈
      (run ⟨true, true, true, true, true, true⟩ ⟨"Linux", "gcc", "Release", "x86_64"⟩ "exp").1.trace ∧
    [("ENABLE_TESTING", "OFF"), ("ENABLE_PROGRAMS", "OFF")] =
      [("ENABLE_TESTING", "OFF"), ("ENABLE_PROGRAMS", "OFF")] :=
  ⟨by decide, build_option_map_exact ⟨true, true, true, true, true, true⟩
      ⟨"Linux", "gcc", "Release", "x86_64"⟩ "exp"
      [("ENABLE_TESTING", "OFF"), ("ENABLE_PROGRAMS", "OFF")] (some "mbedtls") (by decide)⟩

/-- C4: after a fully successful run the Package Descriptor publishes exactly
two facts: the discovery-file path "lib/cmake/MbedTLS/" is the only entry of
cpp_info.builddirs, and the property map's only entry sets cmake_find_mode to
"none". -/
theorem package_descriptor_two_facts (env : Env) (ctx : BuildContext) (esf : String)
    (hc : env.cloneOk = true) (hpe : env.patchFileExists = true)
    (hpa : env.patchApplies = true) (hco : env.configureOk = true)
    (hb : env.buildOk = true) (hi : env.installOk = true) :
    (run env ctx esf).2 = none ∧
    (run env ctx esf).1.cpp_info_builddirs = ["lib/cmake/MbedTLS/"] ∧
    (run env ctx esf).1.cpp_info_properties = [("cmake_find_mode", "none")] := by
  rcases env with ⟨c, pe, pa, co, b, i⟩
  simp only at hc hpe hpa hco hb hi
  subst hc hpe hpa hco hb hi
  refine ⟨rfl, rfl, rfl⟩

/-- C4 witness: the descriptor facts of a concrete fully successful run. -/
theorem package_descriptor_two_facts_witness :
    (run ⟨true, true, true, true, true, true⟩ ⟨"Linux", "gcc", "Release", "x86_64"⟩ "exp").2 = none ∧
    (run ⟨true, true, true, true, true, true⟩ ⟨"Linux", "gcc", "Release", "x86_64"⟩ "exp").1.cpp_info_builddirs = ["lib/cmake/MbedTLS/"] ∧
    (run ⟨true, true, true, true, true, true⟩ ⟨"Linux", "gcc", "Release", "x86_64"⟩ "exp").1.cpp_info_properties = [("cmake_find_mode", "none")] :=
  package_descriptor_two_facts ⟨true, true, true, true, true, true⟩
    ⟨"Linux", "gcc", "Release", "x86_64"⟩ "exp" rfl rfl rfl rfl rfl rfl

/-- C5: the Build Planner stage (`generate`) is a pure transformation of the
ambient build context into the plan: it records the produced plan, appends
exactly the one plan-production invocation to the trace, and leaves every
other component of the run state unchanged. -/
theorem generate_pure_frame (ctx : BuildContext) (s : RunState) :
    (generate ctx s).toolchain = some ctx ∧
    (generate ctx s).trace = s.trace ++ [Action.toolchainGenerate ctx] ∧
    (generate ctx s).fetched = s.fetched ∧
    (generate ctx s).patched = s.patched ∧
    (generate ctx s).configured = s.configured ∧
    (generate ctx s).built = s.built ∧
    (generate ctx s).installed = s.installed ∧
    (generate ctx s).cpp_info_builddirs = s.cpp_info_builddirs ∧
    (generate ctx s).cpp_info_properties = s.cpp_info_properties :=
  ⟨rfl, rfl, rfl, rfl, rfl, rfl, rfl, rfl, rfl⟩

/-- C6: if the bundled patch file is missing or any hunk fails to apply, the
run fails with PatchError at the patch step, and its trace contains no
invocation of the external build tool (configure / build / install): the
failure is fatal before the build stage and is never reported as success. -/
theorem patch_failure_fatal_before_build (env : Env) (ctx : BuildContext) (esf : String)
    (hc : env.cloneOk = true)
    (hp : env.patchFileExists = false ∨ env.patchApplies = false) :
    (run env ctx esf).2 = some RecipeError.PatchError ∧
    (run env ctx esf).1.trace.all (fun a => !isBuildToolInvocation a) = true := by
  rcases env with ⟨c, pe, pa, co, b, i⟩
  simp only at hc hp
  subst hc
  cases pe <;> cases pa <;>
    simp_all [run, source, layout, generate, build, package, package_info,
      andThen, initState, isBuildToolInvocation]

/-- C6 witness: a run whose bundled patch file is missing fails with
PatchError and makes no build-tool invocation. -/
theorem patch_failure_fatal_before_build_witness :
    (⟨true, false, true, true, true, true⟩ : Env).cloneOk = true ∧
    ((⟨true, false, true, true, true, true⟩ : Env).patchFileExists = false ∨
      (⟨true, false, true, true, true, true⟩ : Env).patchApplies = false) ∧
    ((run ⟨true, false, true, true, true, true⟩ ⟨"Linux", "gcc", "Release", "x86_64"⟩ "exp").2 = some RecipeError.PatchError ∧
      (run ⟨true, false, true, true, true, true⟩ ⟨"Linux", "gcc", "Release", "x86_64"⟩ "exp").1.trace.all
        (fun a => !isBuildToolInvocation a) = true) :=
  ⟨rfl, Or.inl rfl,
    patch_failure_fatal_before_build ⟨true, false, true, true, true, true⟩
      ⟨"Linux", "gcc", "Release", "x86_64"⟩ "exp" rfl (Or.inl rfl)⟩

/-- C7: every configure invocation in any recipe run names the build-script
root explicitly: its build_script_folder argument is the recipe's name
"mbedtls", not the ambient default (`none`). -/
theorem configure_explicit_source_root (env : Env) (ctx : BuildContext) (esf : String)
    (v : List (String × String)) (f : Option String)
    (h : Action.cmakeConfigure v f ∈ (run env ctx esf).1.trace) :
    f = some name ∧ f ≠ none ∧ name = "mbedtls" := by
  rcases env with ⟨c, pe, pa, co, b, i⟩
  cases c <;> cases pe <;> cases pa <;> cases co <;> cases b <;> cases i <;>
    simp_all [run, source, layout, generate, build, package, package_info,
      andThen, initState, name]

/-- C7 witness: the configure invocation of a concrete successful run carries
build_script_folder = some "mbedtls". -/
theorem configure_explicit_source_root_witness :
    Action.cmakeConfigure
        [("ENABLE_TESTING", "OFF"), ("ENABLE_PROGRAMS", "OFF")] (some "mbedtls") ∈
      (run ⟨true, true, true, true, true, true⟩ ⟨"Linux", "gcc", "Release", "x86_64"⟩ "exp").1.trace ∧
    ((some "mbedtls" : Option String) = some name ∧ (some "mbedtls" : Option String) ≠ none ∧ name = "mbedtls") :=
  ⟨by decide, configure_explicit_source_root ⟨true, true, true, true, true, true⟩
    ⟨"Linux", "gcc", "Release", "x86_64"⟩ "exp"
    [("ENABLE_TESTING", "OFF"), ("ENABLE_PROGRAMS", "OFF")] (some "mbedtls") (by decide)⟩

/-- C8: every clone invocation in any recipe run targets the upstream mbedtls
repository and passes exactly the arguments of a shallow single-revision
fetch: depth 1 and the pinned tag "v3.5.0". -/
theorem clone_shallow_single_revision (env : Env) (ctx : BuildContext) (esf : String)
    (a : String) (args : List String)
    (h : Action.gitClone a args ∈ (run env ctx esf).1.trace) :
    a = url ∧ args = ["--depth", "1", "--branch", branch] ∧ branch = "v3.5.0" := by
  rcases env with ⟨c, pe, pa, co, b, i⟩
  cases c <;> cases pe <;> cases pa <;> cases co <;> cases b <;> cases i <;>
    simp_all [run, source, layout, generate, build, package, package_info,
      andThen, initState, clone_args, branch, url]

/-- C8 witness: the clone invocation of a concrete successful run uses depth 1
and the pinned tag. -/
theorem clone_shallow_single_revision_witness :
    Action.gitClone "https://github.com/Mbed-TLS/mbedtls.git"
        ["--depth", "1", "--branch", "v3.5.0"] ∈
      (run ⟨true, true, true, true, true, true⟩ ⟨"Linux", "gcc", "Release", "x86_64"⟩ "exp").1.trace ∧
    ("https://github.com/Mbed-TLS/mbedtls.git" = url ∧
      ["--depth", "1", "--branch", "v3.5.0"] = ["--depth", "1", "--branch", branch] ∧
      branch = "v3.5.0") :=
  ⟨by decide, clone_shallow_single_revision ⟨true, true, true, true, true, true⟩
    ⟨"Linux", "gcc", "Release", "x86_64"⟩ "exp"
    "https://github.com/Mbed-TLS/mbedtls.git" ["--depth", "1", "--branch", "v3.5.0"] (by decide)⟩

/-- C9: the patch artifact's name is the deterministic concatenation
"{name}-{branch}.patch" = "mbedtls-v3.5.0.patch", and every patch application
in any recipe run applies that bundled file (joined to the export-sources
folder) with base path equal to the recipe's name. -/
theorem patch_deterministic_name_and_base (env : Env) (ctx : BuildContext) (esf : String)
    (pf bp : String)
    (h : Action.patchApply pf bp ∈ (run env ctx esf).1.trace) :
    pf = esf ++ "/" ++ patch_file ∧ bp = name ∧
    patch_file = name ++ "-" ++ branch ++ ".patch" ∧
    patch_file = "mbedtls-v3.5.0.patch" ∧
    exports_sources = patch_file := by
  rcases env with ⟨c, pe, pa, co, b, i⟩
  cases c <;> cases pe <;> cases pa <;> cases co <;> cases b <;> cases i <;>
    simp_all [run, source, layout, generate, build, package, package_info,
      andThen, initState, patch_file, name, branch, exports_sources]

/-- C9 witness: the patch application of a concrete successful run uses the
deterministic file name and base path "mbedtls". -/
theorem patch_deterministic_name_and_base_witness :
    Action.patchApply "exp/mbedtls-v3.5.0.patch" "mbedtls" ∈
      (run ⟨true, true, true, true, true, true⟩ ⟨"Linux", "gcc", "Release", "x86_64"⟩ "exp").1.trace ∧
    ("exp/mbedtls-v3.5.0.patch" = "exp" ++ "/" ++ patch_file ∧ "mbedtls" = name ∧
      patch_file = name ++ "-" ++ branch ++ ".patch" ∧
      patch_file = "mbedtls-v3.5.0.patch" ∧
      exports_sources = patch_file) :=
  ⟨by decide, patch_deterministic_name_and_base ⟨true, true, true, true, true, true⟩
    ⟨"Linux", "gcc", "Release", "x86_64"⟩ "exp"
    "exp/mbedtls-v3.5.0.patch" "mbedtls" (by decide)⟩

/-- C10: the recipe exposes no consumer-configurable options (both the options
map and the default-options map are empty), and the run — in particular every
build configuration handed to the external build tool — is identical for any
two option assignments a consumer attempts to supply: the configuration is
independent of consumer input. -/
theorem no_consumer_options_noninterference :
    options = [] ∧ default_options = [] ∧
    ∀ (co1 co2 : List (String × String)) (env : Env) (ctx : BuildContext) (esf : String),
      runWithConsumerOptions co1 env ctx esf = runWithConsumerOptions co2 env ctx esf :=
  ⟨rfl, rfl, fun _ _ _ _ _ => rfl⟩

end MbedTLS
